import Mathlib

/-!
Shallow embedding of the gpu-finder pipeline (src/gpu-finder.py, with the
pricing/ranking functions shared verbatim with src/gpu-princing.py), together
with theorems settling the specification claims about it.

Python-specific primitives (str.find, slicing, int(), substring membership)
are embedded explicitly; network pagination is modelled by passing the pages
each listing call would return; dicts become structures with the source's key
names; raised exceptions become Except values; floats become exact rationals
(float(nanos)/1e9 is modelled as (nanos : ℚ) / 1000000000).
-/

namespace GpuFinder

/-- Auxiliary for Python str.find: first index at which sub occurs. -/
def findSubAux (sub : List Char) : List Char → Nat → Option Nat
  | [], i => if sub.isEmpty then some i else none
  | c :: cs, i =>
    if sub.isPrefixOf (c :: cs) then some i else findSubAux sub cs (i + 1)

/-- Python str.find: index of the first occurrence of sub in s, or -1. -/
def pyFind (s sub : String) : Int :=
  match findSubAux sub.toList s.toList 0 with
  | some i => (i : Int)
  | none => -1

/-- Python "sub in s" for strings: substring membership. -/
def pyContains (s sub : String) : Bool :=
  (findSubAux sub.toList s.toList 0).isSome

/-- Python str.startswith, via the character lists. -/
def pyStartsWith (s pre : String) : Bool :=
  pre.toList.isPrefixOf s.toList

/-- Python s[a:b] for non-negative bounds: clamped half-open slice. -/
def pySlice (s : String) (a b : Nat) : String :=
  String.mk ((s.toList.drop a).take (b - a))

/-- Value of a non-empty all-digit character list, as used by Python int(). -/
def digitsVal? (cs : List Char) : Option Nat :=
  if cs.isEmpty then none
  else if cs.all (fun c => c.isDigit) then
    some (cs.foldl (fun n c => n * 10 + (c.toNat - 48)) 0)
  else none

/-- Python int(string): optional surrounding whitespace, optional sign,
then a non-empty digit run; anything else raises ValueError (none here). -/
def pyInt (s : String) : Option Int :=
  let t := List.reverse
    (List.dropWhile (fun c => c.isWhitespace)
      (List.reverse (List.dropWhile (fun c => c.isWhitespace) s.toList)))
  match t with
  | '-' :: rest => (digitsVal? rest).map (fun n => -(n : Int))
  | '+' :: rest => (digitsVal? rest).map (fun n => (n : Int))
  | _ => (digitsVal? t).map (fun n => (n : Int))

/-- instance_config of the input configuration (gpu-config.json). -/
structure InstanceConfig where
  machine_type : String
  gpu_type : String
  number_of_gpus : Int
  zone : List String
deriving DecidableEq

/-- The full input configuration. -/
structure GpuConfig where
  project_id : String
  instance_config : InstanceConfig
deriving DecidableEq

/-- Outcomes of check_gpu_config: the explicit Exception raised on a GPU-count
mismatch, or the ValueError raised by int() on a non-numeric slice. -/
inductive ConfigErr where
  | configurationError
  | valueError
deriving DecidableEq

/-- check_gpu_config (gpu-finder.py lines 17-29): for machine types starting
with "a2", compares number_of_gpus with int of the slice of machine_type from
find("highgpu")+8 to len-1. -/
def check_gpu_config (config : GpuConfig) : Except ConfigErr Unit :=
  let mt := config.instance_config.machine_type
  if pyStartsWith mt "a2" then
    let gpus_in_machine_type := pySlice mt (pyFind mt "highgpu" + 8).toNat (mt.length - 1)
    match pyInt gpus_in_machine_type with
    | none => .error .valueError
    | some k =>
      if config.instance_config.number_of_gpus ≠ k then .error .configurationError
      else .ok ()
  else .ok ()

/-- A zone entry of the zones().list response ("items" element). -/
structure ZoneItem where
  name : String
  status : String
deriving DecidableEq

/-- The dict appended by get_zone_info for each zone with status "UP". -/
structure ZoneRegion where
  region : String
  zone : String
deriving DecidableEq

/-- The zone_regions dict built for one zone: region is the name sliced
from 0 to len-2. -/
def zoneEntry (z : ZoneItem) : ZoneRegion :=
  { region := pySlice z.name 0 (z.name.length - 2), zone := z.name }

/-- get_zone_info (gpu-finder.py lines 32-47): drain the paginated zone
listing, keep status "UP" zones, derive the region. Pagination is modelled by
the list of "items" arrays of the successive pages. -/
def get_zone_info (pages : List (List ZoneItem)) : List ZoneRegion :=
  pages.flatMap fun page =>
    (page.filter (fun z => z.status == "UP")).map zoneEntry

/-- Helper building a config whose other fields are fixed throughout. -/
def mkConfig (mt : String) (n : Int) : GpuConfig :=
  { project_id := "my-project",
    instance_config :=
      { machine_type := mt, gpu_type := "nvidia-tesla-a100",
        number_of_gpus := n, zone := [] } }

/-- unitPrice of a tiered rate (only the nanos field is read). -/
structure UnitPrice where
  nanos : Int
deriving DecidableEq

/-- One tiered rate of a pricing expression. -/
structure TieredRate where
  unitPrice : UnitPrice
deriving DecidableEq

/-- pricingExpression of a pricingInfo entry. -/
structure PricingExpression where
  tiered_rates : List TieredRate
deriving DecidableEq

/-- One pricingInfo entry of a SKU. -/
structure PricingInfo where
  pricingExpression : PricingExpression
deriving DecidableEq

/-- category of a SKU (only resourceFamily is read). -/
structure SkuCategory where
  resourceFamily : String
deriving DecidableEq

/-- One SKU of the billing catalog. serviceRegions models
sku.get("serviceRegions", []): an absent key is the empty list. -/
structure Sku where
  category : SkuCategory
  description : String
  serviceRegions : List String
  pricingInfo : List PricingInfo
deriving DecidableEq

/-- The machine-price matching condition of get_pricing_info
(gpu-finder.py lines 148-152). -/
def machineSkuMatch (machine_type zone : String) (sku : Sku) : Bool :=
  sku.category.resourceFamily == "Compute"
    && pyStartsWith sku.description ("Compute " ++ machine_type)
    && sku.serviceRegions.contains zone

/-- The GPU-price matching condition of get_pricing_info
(gpu-finder.py lines 159-164). -/
def gpuSkuMatch (gpu_type zone : String) (sku : Sku) : Bool :=
  sku.category.resourceFamily == "Compute"
    && pyContains sku.description gpu_type
    && pyContains sku.description "GPU"
    && sku.serviceRegions.contains zone

/-- The only exception get_pricing_info itself can raise in our model:
sku["pricingInfo"][0] on an empty pricingInfo list. -/
inductive PricingErr where
  | indexError
deriving DecidableEq

/-- One of the two identical scanning loops of get_pricing_info: walk the
whole catalog; at each SKU passing the match, overwrite the price with the
first tiered rate's nanos/1e9 (the inner loop body runs once and breaks);
a matching SKU with empty pricingInfo raises IndexError. -/
def priceScan (sel : Sku → Bool) : List Sku → ℚ → Except PricingErr ℚ
  | [], price => .ok price
  | sku :: rest, price =>
    if sel sku then
      match sku.pricingInfo with
      | [] => .error .indexError
      | pinfo :: _ =>
        match pinfo.pricingExpression.tiered_rates with
        | [] => priceScan sel rest price
        | tier :: _ => priceScan sel rest ((tier.unitPrice.nanos : ℚ) / 1000000000)
    else priceScan sel rest price

/-- get_pricing_info (gpu-finder.py lines 129-173): fetch the SKU catalog
(modelled as the input list), run the machine-price scan then the GPU-price
scan, both starting from 0. -/
def get_pricing_info (pricing_catalog : List Sku) (machine_type gpu_type zone : String) :
    Except PricingErr (ℚ × ℚ) := do
  let machine_price ← priceScan (machineSkuMatch machine_type zone) pricing_catalog 0
  let gpu_price ← priceScan (gpuSkuMatch gpu_type zone) pricing_catalog 0
  return (machine_price, gpu_price)

/-- First tiered rate's unit price of a SKU, when the SKU has a pricingInfo
entry with a non-empty tiered-rates list. -/
def firstTierPrice? (sku : Sku) : Option ℚ :=
  match sku.pricingInfo with
  | [] => none
  | pinfo :: _ =>
    match pinfo.pricingExpression.tiered_rates with
    | [] => none
    | tier :: _ => some ((tier.unitPrice.nanos : ℚ) / 1000000000)

/-- Modelled from the spec's words for the claimed behaviour (the price of
the FIRST SKU in catalog order satisfying the matching heuristic, stopping
there): used to compare against the source's scan, which does not stop. -/
def specFirstMatchPrice (sel : Sku → Bool) (pricing_catalog : List Sku) : ℚ :=
  match pricing_catalog.find? sel with
  | none => 0
  | some sku => (firstTierPrice? sku).getD 0

/-- The price the source scan actually produces: the first tiered rate of
the LAST matching SKU that has a non-empty tiered-rates list, 0 if none. -/
def lastMatchPrice (sel : Sku → Bool) (pricing_catalog : List Sku) : ℚ :=
  ((pricing_catalog.filter sel).filterMap firstTierPrice?).getLastD 0

/-- An accelerator descriptor of a machine-type entry (only the first entry's
guestAcceleratorType is read). -/
structure AcceleratorDescriptor where
  guestAcceleratorType : String
deriving DecidableEq

/-- A machine entry of a machineTypes().list response. accelerators = none
models a dict without the "accelerators" key. -/
structure MachineItem where
  name : String
  guestCpus : Int
  description : String
  accelerators : Option (List AcceleratorDescriptor)
deriving DecidableEq

/-- One page of a machineTypes().list response; items = none models a
response dict without the "items" key. -/
structure MachinePage where
  items : Option (List MachineItem)
deriving DecidableEq

/-- The zones_with_instances dict of check_machine_type_and_accelerator;
accelerators is only present in the first branch. -/
structure MachineCandidate where
  machine_type : String
  region : String
  zone : String
  guest_cpus : Int
  description : String
  accelerators : Option (List AcceleratorDescriptor)
deriving DecidableEq

/-- Exceptions of check_machine_type_and_accelerator: response["items"] on a
page without the key, machine["accelerators"][0] on an empty list, and the
explicit raise when no zone has the machine type. -/
inductive MatcherErr where
  | keyErrorItems
  | indexErrorAccelerators
  | noMachineTypes
deriving DecidableEq

/-- The body of the machine loop (gpu-finder.py lines 57-80) for one machine
entry: Python's short-circuit `"accelerators" in machine and name == mt and
machine["accelerators"][0][...] == gpu` followed by `elif name == mt`. -/
def machineEntry (machine_type gpu_type : String) (zr : ZoneRegion) (machine : MachineItem) :
    Except MatcherErr (Option MachineCandidate) :=
  match machine.accelerators with
  | some accs =>
    if machine.name == machine_type then
      match accs with
      | [] => .error .indexErrorAccelerators
      | a :: _ =>
        if a.guestAcceleratorType == gpu_type then
          .ok (some { machine_type := machine.name, region := zr.region, zone := zr.zone,
                      guest_cpus := machine.guestCpus, description := machine.description,
                      accelerators := some accs })
        else
          .ok (some { machine_type := machine.name, region := zr.region, zone := zr.zone,
                      guest_cpus := machine.guestCpus, description := machine.description,
                      accelerators := none })
    else .ok none
  | none =>
    if machine.name == machine_type then
      .ok (some { machine_type := machine.name, region := zr.region, zone := zr.zone,
                  guest_cpus := machine.guestCpus, description := machine.description,
                  accelerators := none })
    else .ok none

/-- The inner for-loop over the items of one machine-type page. -/
def scanMachineItems (machine_type gpu_type : String) (zr : ZoneRegion) :
    List MachineItem → Except MatcherErr (List MachineCandidate)
  | [] => .ok []
  | machine :: rest => do
    let entry ← machineEntry machine_type gpu_type zr machine
    let more ← scanMachineItems machine_type gpu_type zr rest
    match entry with
    | some cand => .ok (cand :: more)
    | none => .ok more

/-- The pagination loop over the machine-type pages of one zone; a page
without "items" raises KeyError. -/
def scanMachinePages (machine_type gpu_type : String) (zr : ZoneRegion) :
    List MachinePage → Except MatcherErr (List MachineCandidate)
  | [] => .ok []
  | page :: rest =>
    match page.items with
    | none => .error .keyErrorItems
    | some items => do
      let here ← scanMachineItems machine_type gpu_type zr items
      let more ← scanMachinePages machine_type gpu_type zr rest
      .ok (here ++ more)

/-- A network request issued against the catalog or billing client. One event
stands for the whole pagination loop of one list call site. -/
inductive Event where
  | zonesList
  | machineTypesList (zone : String)
  | acceleratorTypesList (zone : String)
  | skusList
deriving DecidableEq

/-- The outer zone loop of check_machine_type_and_accelerator, recording the
machineTypes().list request of each zone; an exception stops the loop. -/
def scanMachineZones (machPages : String → List MachinePage) (machine_type gpu_type : String) :
    List ZoneRegion → List Event × Except MatcherErr (List MachineCandidate)
  | [] => ([], .ok [])
  | zr :: rest =>
    match scanMachinePages machine_type gpu_type zr (machPages zr.zone) with
    | .error e => ([.machineTypesList zr.zone], .error e)
    | .ok here =>
      let (events, res) := scanMachineZones machPages machine_type gpu_type rest
      (.machineTypesList zr.zone :: events,
       match res with
       | .error e => .error e
       | .ok more => .ok (here ++ more))

/-- check_machine_type_and_accelerator (gpu-finder.py lines 50-86) with its
request trace: scan all zones, raising when no candidate was collected. The
catalog client is modelled by machPages, the pages returned per zone name. -/
def check_machine_type_and_accelerator_traced (machPages : String → List MachinePage)
    (machine_type gpu_type : String) (zones : List ZoneRegion) :
    List Event × Except MatcherErr (List MachineCandidate) :=
  let (events, res) := scanMachineZones machPages machine_type gpu_type zones
  (events,
   match res with
   | .error e => .error e
   | .ok available_zones =>
     if available_zones.isEmpty then .error .noMachineTypes else .ok available_zones)

/-- check_machine_type_and_accelerator, result only. -/
def check_machine_type_and_accelerator (machPages : String → List MachinePage)
    (machine_type gpu_type : String) (zones : List ZoneRegion) :
    Except MatcherErr (List MachineCandidate) :=
  (check_machine_type_and_accelerator_traced machPages machine_type gpu_type zones).2

/-- An accelerator entry of an acceleratorTypes().list response. -/
structure Accelerator where
  name : String
  description : String
  maximumCardsPerInstance : Int
deriving DecidableEq

/-- One page of an acceleratorTypes().list response; items = none models a
response dict without the "items" key (get_accelerator_quota checks for it). -/
structure AcceleratorPage where
  items : Option (List Accelerator)
deriving DecidableEq

/-- The accelerator_dict produced by get_accelerator_quota (the
"maximum number of GPUs per instance" key). -/
structure QuotaCandidate where
  region : String
  zone : String
  machine_type : String
  guest_cpus : Int
  name : String
  description : String
  maxGpusPerInstance : Int
deriving DecidableEq

/-- The explicit raise of get_accelerator_quota when no candidate remains. -/
inductive QuotaErr where
  | noAccelerators
deriving DecidableEq

/-- The work get_accelerator_quota does for one candidate i (gpu-finder.py
lines 93-121): drain that zone's accelerator pages, skipping pages without
"items", keeping offerings named gpu_type whose maximumCardsPerInstance
covers requested_gpus. -/
def promoteCandidate (accelPages : String → List AcceleratorPage) (config : GpuConfig)
    (requested_gpus : Int) (i : MachineCandidate) : List QuotaCandidate :=
  (accelPages i.zone).flatMap fun page =>
    match page.items with
    | none => []
    | some items =>
      items.filterMap fun accelerator =>
        if accelerator.name == config.instance_config.gpu_type then
          if requested_gpus ≤ accelerator.maximumCardsPerInstance then
            some { region := i.region, zone := i.zone, machine_type := i.machine_type,
                   guest_cpus := i.guest_cpus, name := accelerator.name,
                   description := accelerator.description,
                   maxGpusPerInstance := accelerator.maximumCardsPerInstance }
          else none
        else none

/-- get_accelerator_quota (gpu-finder.py lines 89-126): collect the promoted
candidates over all machine candidates, raising when none remains. -/
def get_accelerator_quota (accelPages : String → List AcceleratorPage) (config : GpuConfig)
    (zone : List MachineCandidate) (requested_gpus : Int) :
    Except QuotaErr (List QuotaCandidate) :=
  let accelerator_list := zone.flatMap (promoteCandidate accelPages config requested_gpus)
  if accelerator_list.isEmpty then .error .noAccelerators else .ok accelerator_list

/-- A quota candidate after main attached machine_price and gpu_price. -/
structure PricedCandidate where
  region : String
  zone : String
  machine_type : String
  guest_cpus : Int
  name : String
  description : String
  maxGpusPerInstance : Int
  machine_price : ℚ
  gpu_price : ℚ
deriving DecidableEq

/-- main's mutation acc["machine_price"] = ...; acc["gpu_price"] = ... . -/
def toPricedCandidate (q : QuotaCandidate) (machine_price gpu_price : ℚ) : PricedCandidate :=
  { region := q.region, zone := q.zone, machine_type := q.machine_type,
    guest_cpus := q.guest_cpus, name := q.name, description := q.description,
    maxGpusPerInstance := q.maxGpusPerInstance,
    machine_price := machine_price, gpu_price := gpu_price }

/-- The dict appended by process_pricing for one priced candidate. -/
structure RankedOption where
  region : String
  zone : String
  machine_type : String
  gpu_type : String
  hourly_cost : ℚ
  machine_cost : ℚ
  gpu_cost : ℚ
  max_gpus : Int
deriving DecidableEq

/-- One iteration of the process_pricing loop (gpu-finder.py lines 180-195):
total_hourly_cost = machine_price + gpu_price * max GPUs per instance. -/
def toRankedOption (acc : PricedCandidate) : RankedOption :=
  { region := acc.region, zone := acc.zone, machine_type := acc.machine_type,
    gpu_type := acc.name,
    hourly_cost := acc.machine_price + acc.gpu_price * (acc.maxGpusPerInstance : ℚ),
    machine_cost := acc.machine_price, gpu_cost := acc.gpu_price,
    max_gpus := acc.maxGpusPerInstance }

/-- The comparison key of sorted(pricing_info, key=itemgetter("hourly_cost")). -/
def costLe (a b : RankedOption) : Bool :=
  decide (a.hourly_cost ≤ b.hourly_cost)

/-- process_pricing (gpu-finder.py lines 176-198): map each candidate to its
ranked record and stably sort by hourly_cost (Python's sorted is stable). -/
def process_pricing (accelerators : List PricedCandidate) : List RankedOption :=
  (accelerators.map toRankedOption).mergeSort costLe

/-- The pricing loop of main (gpu-finder.py lines 234-243): one
skus().list fetch per accelerator candidate; an exception stops the loop. -/
def priceCandidates (catalog : List Sku) :
    List QuotaCandidate → List Event × Except PricingErr (List PricedCandidate)
  | [] => ([], .ok [])
  | acc :: rest =>
    match get_pricing_info catalog acc.machine_type acc.name acc.zone with
    | .error e => ([.skusList], .error e)
    | .ok (machine_price, gpu_price) =>
      let (events, res) := priceCandidates catalog rest
      (.skusList :: events,
       match res with
       | .error e => .error e
       | .ok more => .ok (toPricedCandidate acc machine_price gpu_price :: more))

/-- The errors a run of main can end with. -/
inductive MainErr where
  | configurationError
  | valueError
  | matcher (e : MatcherErr)
  | noAccelerators
  | pricingIndexError
deriving DecidableEq

/-- The two catalog services main talks to: the compute catalog (zones,
machine types, accelerator types, keyed by zone name for the latter two) and
the billing SKU catalog. -/
structure Services where
  zonePages : List (List ZoneItem)
  machPages : String → List MachinePage
  accelPages : String → List AcceleratorPage
  skus : List Sku

/-- main (gpu-finder.py lines 201-259): zone listing first (both branches of
the zone-filter if call get_zone_info), then check_gpu_config, then the
machine/accelerator/pricing stages, then process_pricing. Returns the trace
of network requests issued together with the outcome. -/
def main (services : Services) (gpu_config : GpuConfig) :
    List Event × Except MainErr (List RankedOption) :=
  let zone_info := get_zone_info services.zonePages
  let compute_zones :=
    if ¬gpu_config.instance_config.zone.isEmpty then
      zone_info.filter (fun z => gpu_config.instance_config.zone.contains z.zone)
    else zone_info
  let trace1 := [Event.zonesList]
  match check_gpu_config gpu_config with
  | .error .configurationError => (trace1, .error .configurationError)
  | .error .valueError => (trace1, .error .valueError)
  | .ok () =>
    let (mtEvents, mtRes) := check_machine_type_and_accelerator_traced services.machPages
      gpu_config.instance_config.machine_type gpu_config.instance_config.gpu_type compute_zones
    let trace2 := trace1 ++ mtEvents
    match mtRes with
    | .error e => (trace2, .error (.matcher e))
    | .ok available_zones =>
      let trace3 := trace2 ++ available_zones.map (fun i => Event.acceleratorTypesList i.zone)
      match get_accelerator_quota services.accelPages gpu_config available_zones
          gpu_config.instance_config.number_of_gpus with
      | .error .noAccelerators => (trace3, .error .noAccelerators)
      | .ok accelerators =>
        let (priceEvents, priceRes) := priceCandidates services.skus accelerators
        let trace4 := trace3 ++ priceEvents
        match priceRes with
        | .error .indexError => (trace4, .error .pricingIndexError)
        | .ok priced => (trace4, .ok (process_pricing priced))

end GpuFinder

deriving instance DecidableEq for Except

namespace GpuFinder

/-- C4: check_gpu_config passes for "a2-highgpu-4g" with 4 GPUs, fails with
the configuration error for 2 GPUs, passes for every machine type not
starting with "a2" whatever the GPU count, and for "a2-highgpu-4g" accepts
exactly the count 4 embedded between "highgpu" and the trailing unit letter. -/
theorem claim_C4 :
    check_gpu_config (mkConfig "a2-highgpu-4g" 4) = .ok () ∧
    check_gpu_config (mkConfig "a2-highgpu-4g" 2) = .error .configurationError ∧
    (∀ config : GpuConfig, pyStartsWith config.instance_config.machine_type "a2" = false →
      check_gpu_config config = .ok ()) ∧
    (∀ n : Int, check_gpu_config (mkConfig "a2-highgpu-4g" n) = .ok () ↔ n = 4) := by
  refine ⟨by decide, by decide, ?_, ?_⟩
  · intro config h
    simp [check_gpu_config, h]
  · intro n
    constructor
    · intro h
      by_contra hne
      simp only [check_gpu_config, mkConfig] at h
      rw [if_pos (by decide)] at h
      simp only [show pyInt (pySlice "a2-highgpu-4g" (pyFind "a2-highgpu-4g" "highgpu" + 8).toNat
        ("a2-highgpu-4g".length - 1)) = some 4 from rfl] at h
      rw [if_pos hne] at h
      exact Except.noConfusion h
    · rintro rfl
      rfl

/-- C4 witness: concrete instances of the two hypothetical parts, via the
theorem itself. -/
theorem claim_C4_witness :
    check_gpu_config (mkConfig "n1-standard-4" 7) = .ok () ∧
    check_gpu_config (mkConfig "a2-highgpu-4g" 4) = .ok () :=
  ⟨claim_C4.2.2.1 (mkConfig "n1-standard-4" 7) (by decide),
   (claim_C4.2.2.2 4).mpr rfl⟩

/-- C9: "a2-ultragpu-1g" starts with "a2" but does not contain "highgpu", so
the slice taken from find("highgpu")+8 is the non-numeric "agpu-1" and int()
raises ValueError, for every requested GPU count, instead of the
configuration-mismatch error. -/
theorem claim_C9 :
    pyStartsWith "a2-ultragpu-1g" "a2" = true ∧
    pyContains "a2-ultragpu-1g" "highgpu" = false ∧
    ∀ n : Int, check_gpu_config (mkConfig "a2-ultragpu-1g" n) = .error .valueError :=
  ⟨by decide, by decide, fun _ => rfl⟩

/-- C7: get_zone_info keeps exactly the status-"UP" zones of the drained
pages, in catalog iteration order, and every returned entry's region is the
zone name with its last two characters removed. -/
theorem claim_C7 : ∀ pages : List (List ZoneItem),
    get_zone_info pages
      = (pages.flatten.filter (fun z => z.status == "UP")).map zoneEntry ∧
    ∀ e ∈ get_zone_info pages,
      e.region = String.mk (e.zone.toList.take (e.zone.toList.length - 2)) := by
  intro pages
  constructor
  · induction pages with
    | nil => rfl
    | cons page rest ih =>
      simp [get_zone_info, List.filter_append, List.map_append] at ih ⊢
      exact ih
  · intro e he
    simp only [get_zone_info, List.mem_flatMap, List.mem_map, List.mem_filter] at he
    obtain ⟨page, _, z, _, rfl⟩ := he
    rfl

/-- C7 witness: the general theorem applied to a one-page catalog. -/
theorem claim_C7_witness :
    (zoneEntry ⟨"us-central1-a", "UP"⟩).region
      = String.mk ((zoneEntry ⟨"us-central1-a", "UP"⟩).zone.toList.take
          ((zoneEntry ⟨"us-central1-a", "UP"⟩).zone.toList.length - 2)) :=
  (claim_C7 [[⟨"us-central1-a", "UP"⟩]]).2 (zoneEntry ⟨"us-central1-a", "UP"⟩) (by decide)

/-- Machine-type pages whose single page lacks the "items" key. -/
def machPagesNoItems : String → List MachinePage := fun _ => [{ items := none }]

/-- Accelerator pages for one zone: a first page without "items", then a page
carrying a matching offering. -/
def accelPagesSkipItems : String → List AcceleratorPage := fun _ =>
  [{ items := none },
   { items := some [{ name := "nvidia-tesla-a100", description := "NVIDIA Tesla A100",
                      maximumCardsPerInstance := 8 }] }]

/-- A machine candidate fixture in zone us-central1-a. -/
def machineCandidateFixture : MachineCandidate :=
  { machine_type := "a2-highgpu-1g", region := "us-central1", zone := "us-central1-a",
    guest_cpus := 12, description := "Accelerator Optimized", accelerators := none }

/-- C10: on a machine-type page without "items",
check_machine_type_and_accelerator fails with the key-lookup error, while
get_accelerator_quota skips accelerator pages without "items" and continues,
here succeeding from the later page. -/
theorem claim_C10 :
    check_machine_type_and_accelerator machPagesNoItems "a2-highgpu-1g" "nvidia-tesla-a100"
        [⟨"us-central1", "us-central1-a"⟩] = .error .keyErrorItems ∧
    get_accelerator_quota accelPagesSkipItems (mkConfig "a2-highgpu-1g" 1)
        [machineCandidateFixture] 1
      = .ok [{ region := "us-central1", zone := "us-central1-a",
               machine_type := "a2-highgpu-1g", guest_cpus := 12,
               name := "nvidia-tesla-a100", description := "NVIDIA Tesla A100",
               maxGpusPerInstance := 8 }] := by
  constructor
  · rfl
  · rfl

/-- A SKU fixture in the Compute resource family, priced in the us-central1
service region with a single tiered rate. -/
def skuFixture (nanos : Int) (desc : String) : Sku :=
  { category := { resourceFamily := "Compute" }, description := desc,
    serviceRegions := ["us-central1"],
    pricingInfo := [{ pricingExpression := { tiered_rates := [{ unitPrice := { nanos := nanos } }] } }] }

/-- A catalog in which two SKUs satisfy the machine-price heuristic for
n1-standard-4 in us-central1, with different prices. -/
def catalogTwoMachineSkus : List Sku :=
  [skuFixture 1 "Compute n1-standard-4 Instance Core",
   skuFixture 2 "Compute n1-standard-4 Instance Ram"]

/-- The scanning loop keeps overwriting the price: it returns the first
tiered rate of the last matching SKU with a non-empty tiered-rates list,
provided every matching SKU has a pricingInfo entry. -/
theorem priceScan_eq_lastMatch (sel : Sku → Bool) :
    ∀ (l : List Sku) (acc : ℚ),
      (∀ sku ∈ l, sel sku = true → sku.pricingInfo ≠ []) →
      priceScan sel l acc = .ok (((l.filter sel).filterMap firstTierPrice?).getLastD acc) := by
  intro l
  induction l with
  | nil => intro acc _; rfl
  | cons sku rest ih =>
    intro acc h
    have hrest : ∀ s ∈ rest, sel s = true → s.pricingInfo ≠ [] :=
      fun s hs => h s (List.mem_cons_of_mem _ hs)
    by_cases hsel : sel sku = true
    · have hpi : sku.pricingInfo ≠ [] := h sku (List.mem_cons_self _ _) hsel
      match hpieq : sku.pricingInfo with
      | [] => exact absurd hpieq hpi
      | pinfo :: pis =>
        match hte : pinfo.pricingExpression.tiered_rates with
        | [] =>
          have hft : firstTierPrice? sku = none := by
            simp [firstTierPrice?, hpieq, hte]
          rw [List.filter_cons_of_pos hsel, List.filterMap_cons_none hft, ← ih acc hrest]
          simp [priceScan, hsel, hpieq, hte]
        | tier :: ts =>
          have hft : firstTierPrice? sku = some ((tier.unitPrice.nanos : ℚ) / 1000000000) := by
            simp [firstTierPrice?, hpieq, hte]
          rw [List.filter_cons_of_pos hsel, List.filterMap_cons_some hft,
            List.getLastD_cons, ← ih _ hrest]
          simp [priceScan, hsel, hpieq, hte]
    · have hsel' : sel sku = false := by simpa using hsel
      rw [List.filter_cons_of_neg (by simp [hsel']), ← ih acc hrest]
      simp [priceScan, hsel']

/-- An unmatched scan leaves the running price untouched. -/
theorem priceScan_no_match (sel : Sku → Bool) :
    ∀ (l : List Sku) (acc : ℚ), (∀ sku ∈ l, sel sku = false) →
      priceScan sel l acc = .ok acc := by
  intro l
  induction l with
  | nil => intro acc _; rfl
  | cons sku rest ih =>
    intro acc h
    have hs : sel sku = false := h sku (List.mem_cons_self _ _)
    simp [priceScan, hs, ih acc (fun s hs' => h s (List.mem_cons_of_mem _ hs'))]

/-- C1 counterexample: with two matching machine SKUs priced 1 and 2 nanos,
get_pricing_info returns the price of the second (last) one, not that of the
first SKU in catalog order as the claim states. -/
theorem claim_C1_counterexample :
    get_pricing_info catalogTwoMachineSkus "n1-standard-4" "nvidia-tesla-t4" "us-central1"
      = .ok ((2 : ℚ) / 1000000000, 0) ∧
    specFirstMatchPrice (machineSkuMatch "n1-standard-4" "us-central1") catalogTwoMachineSkus
      = (1 : ℚ) / 1000000000 ∧
    ((2 : ℚ) / 1000000000) ≠ ((1 : ℚ) / 1000000000) := by
  refine ⟨?_, ?_, by norm_num⟩
  · show Except.ok (((2 : Int) : ℚ) / 1000000000, (0 : ℚ)) = _
    norm_num
  · show ((1 : Int) : ℚ) / 1000000000 = _
    norm_num

/-- C1 amended: when every matching SKU has a pricingInfo entry,
get_pricing_info returns, for each component, the first tiered rate's unit
price (nanos/1e9) of the LAST SKU in catalog order that satisfies the
matching heuristic and has a non-empty tiered-rates list (0 when there is
none); only the tier scan stops at the first tier, the SKU scan does not
stop at the first matching SKU. -/
theorem claim_C1_amended : ∀ (catalog : List Sku) (machine_type gpu_type zone : String),
    (∀ sku ∈ catalog, machineSkuMatch machine_type zone sku = true → sku.pricingInfo ≠ []) →
    (∀ sku ∈ catalog, gpuSkuMatch gpu_type zone sku = true → sku.pricingInfo ≠ []) →
    get_pricing_info catalog machine_type gpu_type zone
      = .ok (lastMatchPrice (machineSkuMatch machine_type zone) catalog,
             lastMatchPrice (gpuSkuMatch gpu_type zone) catalog) := by
  intro catalog machine_type gpu_type zone hm hg
  unfold get_pricing_info
  rw [priceScan_eq_lastMatch _ _ _ hm, priceScan_eq_lastMatch _ _ _ hg]
  rfl

/-- C1 witness: the amended theorem applied to the two-SKU catalog. -/
theorem claim_C1_witness :
    get_pricing_info catalogTwoMachineSkus "n1-standard-4" "nvidia-tesla-t4" "us-central1"
      = .ok (lastMatchPrice (machineSkuMatch "n1-standard-4" "us-central1") catalogTwoMachineSkus,
             lastMatchPrice (gpuSkuMatch "nvidia-tesla-t4" "us-central1") catalogTwoMachineSkus) :=
  claim_C1_amended catalogTwoMachineSkus "n1-standard-4" "nvidia-tesla-t4" "us-central1"
    (by decide) (by decide)

/-- C8: when no SKU satisfies the machine (respectively GPU) matching
heuristic, the corresponding scan leaves the price at 0 without failing, and
when both miss, get_pricing_info returns (0, 0) with no error. -/
theorem claim_C8 : ∀ (catalog : List Sku) (machine_type gpu_type zone : String),
    ((∀ sku ∈ catalog, machineSkuMatch machine_type zone sku = false) →
      priceScan (machineSkuMatch machine_type zone) catalog 0 = .ok 0) ∧
    ((∀ sku ∈ catalog, gpuSkuMatch gpu_type zone sku = false) →
      priceScan (gpuSkuMatch gpu_type zone) catalog 0 = .ok 0) ∧
    ((∀ sku ∈ catalog, machineSkuMatch machine_type zone sku = false) →
      (∀ sku ∈ catalog, gpuSkuMatch gpu_type zone sku = false) →
      get_pricing_info catalog machine_type gpu_type zone = .ok (0, 0)) := by
  intro catalog machine_type gpu_type zone
  refine ⟨fun h => priceScan_no_match _ _ _ h, fun h => priceScan_no_match _ _ _ h, ?_⟩
  intro hm hg
  unfold get_pricing_info
  rw [priceScan_no_match _ _ _ hm, priceScan_no_match _ _ _ hg]
  rfl

/-- C8 witness: a catalog whose only SKU matches neither heuristic (wrong
zone), via the theorem itself. -/
theorem claim_C8_witness :
    get_pricing_info [skuFixture 5 "Nvidia Tesla T4 GPU running"]
        "n1-standard-4" "nvidia-tesla-a100" "europe-west4" = .ok (0, 0) :=
  (claim_C8 [skuFixture 5 "Nvidia Tesla T4 GPU running"]
    "n1-standard-4" "nvidia-tesla-a100" "europe-west4").2.2 (by decide) (by decide)

/-- The hourly-cost comparison is transitive. -/
theorem costLe_trans : ∀ a b c : RankedOption,
    costLe a b = true → costLe b c = true → costLe a c = true := by
  intro a b c hab hbc
  simp only [costLe, decide_eq_true_eq] at hab hbc ⊢
  exact le_trans hab hbc

/-- The hourly-cost comparison is total. -/
theorem costLe_total : ∀ a b : RankedOption, (costLe a b || costLe b a) = true := by
  intro a b
  simp only [costLe, Bool.or_eq_true, decide_eq_true_eq]
  exact le_total _ _

/-- C2: every record process_pricing produces comes from an input candidate
and carries hourly_cost = machine_price + gpu_price * (the offering's
maximum number of GPUs per instance). -/
theorem claim_C2 : ∀ (accelerators : List PricedCandidate) (r : RankedOption),
    r ∈ process_pricing accelerators →
    ∃ acc ∈ accelerators, r = toRankedOption acc ∧
      r.hourly_cost = acc.machine_price + acc.gpu_price * (acc.maxGpusPerInstance : ℚ) := by
  intro accelerators r hr
  have hmem : r ∈ accelerators.map toRankedOption := List.mem_mergeSort.mp hr
  obtain ⟨acc, hacc, rfl⟩ := List.mem_map.mp hmem
  exact ⟨acc, hacc, rfl, rfl⟩

/-- A concrete priced candidate (machine at 2, GPU at 1, one card max). -/
def pricedFixture : PricedCandidate :=
  { region := "us-central1", zone := "us-central1-a", machine_type := "a2-highgpu-1g",
    guest_cpus := 12, name := "nvidia-tesla-a100", description := "NVIDIA Tesla A100",
    maxGpusPerInstance := 1, machine_price := 2, gpu_price := 1 }

/-- C2 witness: the theorem applied to a one-candidate list. -/
theorem claim_C2_witness :
    ∃ acc ∈ [pricedFixture], toRankedOption pricedFixture = toRankedOption acc ∧
      (toRankedOption pricedFixture).hourly_cost
        = acc.machine_price + acc.gpu_price * (acc.maxGpusPerInstance : ℚ) :=
  claim_C2 [pricedFixture] (toRankedOption pricedFixture)
    (by simp [process_pricing, List.mem_mergeSort])

/-- C5: process_pricing returns a permutation of the mapped records,
non-decreasing in hourly_cost, and stably: the records with any given
hourly_cost keep their input order. -/
theorem claim_C5 : ∀ accelerators : List PricedCandidate,
    (process_pricing accelerators).Perm (accelerators.map toRankedOption) ∧
    (process_pricing accelerators).Pairwise (fun a b => a.hourly_cost ≤ b.hourly_cost) ∧
    ∀ q : ℚ,
      (process_pricing accelerators).filter (fun r => decide (r.hourly_cost = q))
        = (accelerators.map toRankedOption).filter (fun r => decide (r.hourly_cost = q)) := by
  intro accelerators
  refine ⟨List.mergeSort_perm _ _, ?_, ?_⟩
  · exact (List.sorted_mergeSort costLe_trans costLe_total _).imp
      (fun h => by simpa [costLe] using h)
  · intro q
    set l := accelerators.map toRankedOption with hl
    set p : RankedOption → Bool := fun r => decide (r.hourly_cost = q) with hp
    have hpw : (l.filter p).Pairwise (fun a b => costLe a b = true) := by
      refine List.pairwise_of_forall_mem_list ?_
      intro a ha b hb
      have ha' : a.hourly_cost = q := by
        simpa [hp] using (List.mem_filter.mp ha).2
      have hb' : b.hourly_cost = q := by
        simpa [hp] using (List.mem_filter.mp hb).2
      simp [costLe, ha', hb']
    have hsub : List.Sublist (l.filter p) (l.mergeSort costLe) :=
      List.sublist_mergeSort costLe_trans costLe_total hpw (List.filter_sublist l)
    have hsub2 : List.Sublist ((l.filter p).filter p) ((l.mergeSort costLe).filter p) :=
      hsub.filter p
    rw [List.filter_eq_self.mpr (fun a ha => (List.mem_filter.mp ha).2)] at hsub2
    have hlen : ((l.mergeSort costLe).filter p).length = (l.filter p).length :=
      ((List.mergeSort_perm l costLe).filter p).length_eq
    exact (hsub2.eq_of_length hlen.symm).symm

/-- The promoted quota candidates of one machine candidate, characterised:
one per accelerator offering of the candidate's zone (on pages carrying
"items") whose name is the requested gpu_type and whose maximum covers the
requested count. -/
theorem mem_promoteCandidate (accelPages : String → List AcceleratorPage) (config : GpuConfig)
    (requested_gpus : Int) (i : MachineCandidate) (q : QuotaCandidate) :
    q ∈ promoteCandidate accelPages config requested_gpus i ↔
      ∃ page ∈ accelPages i.zone, ∃ items, page.items = some items ∧
        ∃ a ∈ items, a.name = config.instance_config.gpu_type ∧
          requested_gpus ≤ a.maximumCardsPerInstance ∧
          q = { region := i.region, zone := i.zone, machine_type := i.machine_type,
                guest_cpus := i.guest_cpus, name := a.name, description := a.description,
                maxGpusPerInstance := a.maximumCardsPerInstance } := by
  simp only [promoteCandidate, List.mem_flatMap]
  constructor
  · rintro ⟨page, hp, hq⟩
    match hpi : page.items with
    | none => rw [hpi] at hq; exact absurd hq (List.not_mem_nil q)
    | some items =>
      rw [hpi] at hq
      obtain ⟨a, ha, hga⟩ := List.mem_filterMap.mp hq
      by_cases h1 : a.name == config.instance_config.gpu_type
      · by_cases h2 : requested_gpus ≤ a.maximumCardsPerInstance
        · rw [if_pos h1, if_pos h2] at hga
          exact ⟨page, hp, items, hpi, a, ha, by simpa using h1, h2,
            (Option.some_inj.mp hga).symm⟩
        · rw [if_pos h1, if_neg h2] at hga
          exact absurd hga (Option.some_ne_none _).symm
      · rw [if_neg h1] at hga
        exact absurd hga (Option.some_ne_none _).symm
  · rintro ⟨page, hp, items, hpi, a, ha, hname, hmax, rfl⟩
    refine ⟨page, hp, ?_⟩
    rw [hpi]
    exact List.mem_filterMap.mpr ⟨a, ha, by rw [if_pos (by simpa using hname), if_pos hmax]⟩

/-- C6: a machine candidate is promoted iff some accelerator offering listed
for the same zone bears the requested gpu_type name with capacity at least
the requested count; every promoted record keeps the candidate's zone and
machine type with its requested count covered, and everything
get_accelerator_quota returns arises by promoting an input candidate. -/
theorem claim_C6 : ∀ (accelPages : String → List AcceleratorPage) (config : GpuConfig)
    (requested_gpus : Int) (i : MachineCandidate),
    ((∃ q, q ∈ promoteCandidate accelPages config requested_gpus i) ↔
      ∃ page ∈ accelPages i.zone, ∃ items, page.items = some items ∧
        ∃ a ∈ items, a.name = config.instance_config.gpu_type ∧
          requested_gpus ≤ a.maximumCardsPerInstance) ∧
    (∀ q ∈ promoteCandidate accelPages config requested_gpus i,
      q.zone = i.zone ∧ q.machine_type = i.machine_type ∧
        q.name = config.instance_config.gpu_type ∧
        requested_gpus ≤ q.maxGpusPerInstance) ∧
    (∀ (candidates : List MachineCandidate) (result : List QuotaCandidate),
      get_accelerator_quota accelPages config candidates requested_gpus = .ok result →
      ∀ q ∈ result, ∃ j ∈ candidates, q ∈ promoteCandidate accelPages config requested_gpus j) := by
  intro accelPages config requested_gpus i
  refine ⟨?_, ?_, ?_⟩
  · constructor
    · rintro ⟨q, hq⟩
      obtain ⟨page, hp, items, hpi, a, ha, hname, hmax, -⟩ :=
        (mem_promoteCandidate accelPages config requested_gpus i q).mp hq
      exact ⟨page, hp, items, hpi, a, ha, hname, hmax⟩
    · rintro ⟨page, hp, items, hpi, a, ha, hname, hmax⟩
      exact ⟨_, (mem_promoteCandidate accelPages config requested_gpus i _).mpr
        ⟨page, hp, items, hpi, a, ha, hname, hmax, rfl⟩⟩
  · intro q hq
    obtain ⟨page, hp, items, hpi, a, ha, hname, hmax, rfl⟩ :=
      (mem_promoteCandidate accelPages config requested_gpus i q).mp hq
    exact ⟨rfl, rfl, hname, hmax⟩
  · intro candidates result hok q hq
    unfold get_accelerator_quota at hok
    by_cases hemp : (candidates.flatMap (promoteCandidate accelPages config requested_gpus)).isEmpty
    · rw [if_pos hemp] at hok
      exact absurd hok (by simp)
    · rw [if_neg hemp] at hok
      obtain rfl := Except.ok.inj hok
      exact List.mem_flatMap.mp hq

/-- An accelerator-pages environment with a single matching offering. -/
def accelPagesFixture : String → List AcceleratorPage := fun _ =>
  [{ items := some [{ name := "nvidia-tesla-a100", description := "NVIDIA Tesla A100",
                      maximumCardsPerInstance := 4 }] }]

/-- The quota candidate promoted from machineCandidateFixture under
accelPagesFixture. -/
def quotaFixture : QuotaCandidate :=
  { region := "us-central1", zone := "us-central1-a", machine_type := "a2-highgpu-1g",
    guest_cpus := 12, name := "nvidia-tesla-a100", description := "NVIDIA Tesla A100",
    maxGpusPerInstance := 4 }

/-- C6 witness: the theorem's conditional parts applied to concrete
fixtures. -/
theorem claim_C6_witness :
    (quotaFixture.zone = machineCandidateFixture.zone ∧
      quotaFixture.machine_type = machineCandidateFixture.machine_type ∧
      quotaFixture.name = (mkConfig "a2-highgpu-1g" 1).instance_config.gpu_type ∧
      (1 : Int) ≤ quotaFixture.maxGpusPerInstance) ∧
    ∃ j ∈ [machineCandidateFixture],
      quotaFixture ∈ promoteCandidate accelPagesFixture (mkConfig "a2-highgpu-1g" 1) 1 j :=
  ⟨(claim_C6 accelPagesFixture (mkConfig "a2-highgpu-1g" 1) 1 machineCandidateFixture).2.1
      quotaFixture (by decide),
   (claim_C6 accelPagesFixture (mkConfig "a2-highgpu-1g" 1) 1 machineCandidateFixture).2.2
      [machineCandidateFixture] [quotaFixture] (by decide) quotaFixture (by decide)⟩

/-- A concrete pair of catalog services for running main. -/
def servicesFixture : Services :=
  { zonePages := [[⟨"us-central1-a", "UP"⟩]],
    machPages := fun _ => [],
    accelPages := fun _ => [],
    skus := [] }

/-- C3 (defect witness): with machine_type "a2-highgpu-1g" and
number_of_gpus = 2, main does fail with the configuration error, but only
after the zones().list request has been issued: the trace already contains
the zone-listing event, contradicting "before any zone listing request". -/
theorem claim_C3_defect :
    main servicesFixture (mkConfig "a2-highgpu-1g" 2)
      = ([Event.zonesList], .error .configurationError) := rfl

end GpuFinder
